import Mathlib

/-!
Verification of the session/authentication lifecycle of the CookingSecrets2
mobile client, shallowly embedded from:
  - src/frontend/utils/api.ts        (axios instance with request/response interceptors)
  - src/frontend/contexts/AuthContext.tsx  (loadUser, login, logout, refreshUser)

JavaScript values that flow through this code (response bodies, the in-memory
user state) are modelled by a small JSON value type `Json`; `JSON.stringify`
and `JSON.parse` are modelled by `Json.stringify` and `jsonParse` (a subset of
real JSON: no escape sequences, no arrays, integer numbers — enough to cover
every behaviour the client code depends on).  AsyncStorage is modelled by an
association list `Store`; asynchronous effects are sequenced explicitly, and
storage failures (AsyncStorage operations rejecting) are modelled by boolean
flags supplied by the environment.
-/

-- JS/JSON values, restricted to the shapes the client code manipulates.
-- `JFields` is the (ordered) field list of an object.
mutual
inductive Json where
  | null : Json
  | bool : Bool → Json
  | num : Int → Json
  | str : String → Json
  | obj : JFields → Json
deriving DecidableEq

inductive JFields where
  | nil : JFields
  | cons : String → Json → JFields → JFields
deriving DecidableEq
end

/-- Brace characters, used by the JSON printer and reader. -/
def lbrace : Char := Char.ofNat 123

def rbrace : Char := Char.ofNat 125

-- `JSON.stringify` on the modelled value subset.
mutual
def Json.stringify : Json → String
  | .null => "null"
  | .bool b => if b then "true" else "false"
  | .num n => toString n
  | .str s => "\"" ++ s ++ "\""
  | .obj fs => "\x7b" ++ JFields.stringify fs ++ "\x7d"

def JFields.stringify : JFields → String
  | .nil => ""
  | .cons k v .nil => "\"" ++ k ++ "\":" ++ Json.stringify v
  | .cons k v (.cons k2 v2 rest) =>
      "\"" ++ k ++ "\":" ++ Json.stringify v ++ "," ++
        JFields.stringify (.cons k2 v2 rest)
end

/-- JS property lookup on an object's field list.  With duplicate keys the
later field wins, as in JavaScript. -/
def JFields.lookup : JFields → String → Option Json
  | .nil, _ => none
  | .cons k v rest, key =>
    match rest.lookup key with
    | some r => some r
    | none => if k = key then some v else none

/-- JS property access `value.field`: defined on objects, `undefined`
(modelled as `none`) on every other value. -/
def Json.getField : Json → String → Option Json
  | .obj fs, k => fs.lookup k
  | _, _ => none

/-- JS truthiness of a value (`null`, `false`, `0` and `""` are falsy). -/
def Json.truthy : Json → Bool
  | .null => false
  | .bool b => b
  | .num n => n != 0
  | .str s => s != ""
  | .obj _ => true

/-- JS `String(value)` coercion, as used by `new Error(message)`. -/
def Json.jsString : Json → String
  | .null => "null"
  | .bool b => if b then "true" else "false"
  | .num n => toString n
  | .str s => s
  | .obj _ => "[object Object]"

/-- Whitespace skipping for the JSON reader. -/
def skipWs : List Char → List Char
  | [] => []
  | c :: cs =>
    if c = ' ' || c = '\n' || c = '\t' || c = '\r' then skipWs cs else c :: cs

/-- Characters of a JSON string literal up to the closing quote (escape
sequences are outside the modelled subset). -/
def takeStringChars : List Char → Option (List Char × List Char)
  | [] => none
  | c :: cs =>
    if c = '"' then some ([], cs)
    else if c = '\\' then none
    else
      match takeStringChars cs with
      | some (s, r) => some (c :: s, r)
      | none => none

/-- Maximal digit prefix. -/
def takeDigits : List Char → List Char × List Char
  | [] => ([], [])
  | c :: cs =>
    if c.isDigit then
      let (d, r) := takeDigits cs
      (c :: d, r)
    else ([], c :: cs)

def digitsToNat (ds : List Char) : Nat :=
  ds.foldl (fun acc c => acc * 10 + (c.toNat - 48)) 0

-- Fuel-indexed JSON reader (model of `JSON.parse` on the value subset).
mutual
def parseVal : Nat → List Char → Option (Json × List Char)
  | 0, _ => none
  | Nat.succ fuel, cs =>
    match skipWs cs with
    | 'n' :: 'u' :: 'l' :: 'l' :: r => some (Json.null, r)
    | 't' :: 'r' :: 'u' :: 'e' :: r => some (Json.bool true, r)
    | 'f' :: 'a' :: 'l' :: 's' :: 'e' :: r => some (Json.bool false, r)
    | '"' :: r =>
      match takeStringChars r with
      | some (s, r2) => some (Json.str (String.mk s), r2)
      | none => none
    | '-' :: r =>
      (match takeDigits r with
       | ([], _) => none
       | (ds, r2) => some (Json.num (-(Int.ofNat (digitsToNat ds))), r2))
    | c :: r =>
      if c = lbrace then parseObjBody fuel r
      else if c.isDigit then
        match takeDigits (c :: r) with
        | (ds, r2) => some (Json.num (Int.ofNat (digitsToNat ds)), r2)
      else none
    | [] => none

def parseObjBody : Nat → List Char → Option (Json × List Char)
  | 0, _ => none
  | Nat.succ fuel, cs =>
    match skipWs cs with
    | c :: r =>
      if c = rbrace then some (Json.obj JFields.nil, r)
      else
        match parseFields fuel (c :: r) with
        | some (fs, r2) => some (Json.obj fs, r2)
        | none => none
    | [] => none

def parseFields : Nat → List Char → Option (JFields × List Char)
  | 0, _ => none
  | Nat.succ fuel, cs =>
    match skipWs cs with
    | '"' :: r =>
      match takeStringChars r with
      | some (k, r2) =>
        (match skipWs r2 with
         | ':' :: r3 =>
           (match parseVal fuel r3 with
            | some (v, r4) =>
              (match skipWs r4 with
               | ',' :: r5 =>
                 (match parseFields fuel r5 with
                  | some (fs, r6) => some (JFields.cons (String.mk k) v fs, r6)
                  | none => none)
               | c :: r5 =>
                 if c = rbrace then
                   some (JFields.cons (String.mk k) v JFields.nil, r5)
                 else none
               | [] => none)
            | none => none)
         | _ => none)
      | none => none
    | _ => none
end

/-- Model of `JSON.parse`: `some v` when parsing succeeds, `none` when real
`JSON.parse` would throw. -/
def jsonParse (s : String) : Option Json :=
  match parseVal (s.length + 1) s.data with
  | some (v, r) => if skipWs r = [] then some v else none
  | none => none

/-! ## AsyncStorage model -/

/-- The device key-value store (AsyncStorage), as an association list.
`storeGet` models `AsyncStorage.getItem` (string or `null`). -/
abbrev Store := List (String × String)

def storeGet (s : Store) (k : String) : Option String :=
  match s with
  | [] => none
  | (k2, v) :: rest => if k2 = k then some v else storeGet rest k

/-- Effect of `AsyncStorage.removeItem k` on the store contents. -/
def storeRemove (s : Store) (k : String) : Store :=
  match s with
  | [] => []
  | (k2, v) :: rest =>
    if k2 = k then storeRemove rest k else (k2, v) :: storeRemove rest k

/-- Effect of `AsyncStorage.setItem k v` on the store contents. -/
def storeSet (s : Store) (k v : String) : Store :=
  (k, v) :: storeRemove s k

/-- Effect of `AsyncStorage.multiRemove ks` on the store contents. -/
def multiRemove (s : Store) (ks : List String) : Store :=
  ks.foldl storeRemove s

/-! ## Authenticated request pipeline (src/frontend/utils/api.ts) -/

/-- The part of an outgoing axios request config the interceptor touches:
its `Authorization` header (`none` = header absent). -/
structure RequestConfig where
  authorization : Option String
deriving DecidableEq

/-- Request-phase interceptor: reads `token` from the store on each request;
a JS-truthy value installs `Authorization: Bearer <token>`, otherwise the
config passes through unchanged. -/
def requestInterceptor (store : Store) (cfg : RequestConfig) : RequestConfig :=
  match storeGet store "token" with
  | some t => if t ≠ "" then { cfg with authorization := some ("Bearer " ++ t) } else cfg
  | none => cfg

/-- An HTTP response as axios presents it (status plus parsed body). -/
structure HttpResponse where
  status : Nat
  data : Json
deriving DecidableEq

/-- An axios rejection; `response` is `none` for transport-level failures
(network unreachable, timeout, storage errors surfacing through the call). -/
structure AxiosError where
  response : Option HttpResponse
deriving DecidableEq

/-- Response-phase error interceptor: on status 401 removes `token` then
`user` from the store; always re-raises the original error unchanged.
Returns the store after the handler and the propagated error. -/
def responseErrorInterceptor (store : Store) (e : AxiosError) :
    Store × AxiosError :=
  if e.response.map HttpResponse.status = some 401 then
    (storeRemove (storeRemove store "token") "user", e)
  else
    (store, e)

/-- The successive store states at the `await` points inside the 401 branch
of the response interceptor: before the handler, after
`removeItem('token')`, and after `removeItem('user')`. -/
def interceptor401States (store : Store) : List Store :=
  [store, storeRemove store "token",
    storeRemove (storeRemove store "token") "user"]

/-- Outcome of a network call as seen by the code after the interceptors. -/
inductive ApiResult where
  | success : HttpResponse → ApiResult
  | failure : AxiosError → ApiResult
deriving DecidableEq

/-! ## Session lifecycle (src/frontend/contexts/AuthContext.tsx) -/

/-- In-memory auth state: `user` is the React `user` state (`Json.null` when
anonymous), `loading` the startup flag, `store` the AsyncStorage contents,
`defaultAuth` the axios `defaults.headers.common.Authorization` slot that
`logout` defensively deletes. -/
structure AuthState where
  user : Json
  loading : Bool
  store : Store
  defaultAuth : Option String
deriving DecidableEq

/-- `error?.response?.data?.detail || fallback`, the message given to
`new Error` in the catch blocks of `login` and `signup`. -/
def errorMessage (e : AxiosError) (fallback : String) : String :=
  match e.response with
  | none => fallback
  | some r =>
    match r.data.getField "detail" with
    | some d => if d.truthy then d.jsString else fallback
    | none => fallback

/-- Result of `loadUser`: the resulting `user` state and `loading` flag, and
the list of API endpoints contacted (the function body performs no network
call, so this list is always empty by construction). -/
structure LoadOutcome where
  user : Json
  loading : Bool
  requests : List String
deriving DecidableEq

/-- `loadUser` (startup rehydration): reads `token` and `user` from the
store; if both are JS-truthy, parses the cached profile and sets the user
state; any storage or parse error is caught, and `finally` clears
`loading`.  `storageFails` models the AsyncStorage reads rejecting. -/
def loadUser (store : Store) (storageFails : Bool) : LoadOutcome :=
  if storageFails then
    ⟨Json.null, false, []⟩
  else
    match storeGet store "token", storeGet store "user" with
    | some t, some ud =>
      if t ≠ "" ∧ ud ≠ "" then
        match jsonParse ud with
        | some v => ⟨v, false, []⟩
        | none => ⟨Json.null, false, []⟩
      else ⟨Json.null, false, []⟩
    | _, _ => ⟨Json.null, false, []⟩

/-- Outcome of `login` / `signup`: the state afterwards, whether the promise
resolved (`.ok`) or rejected with `new Error msg` (`.error msg`), and which
endpoint was POSTed. -/
structure LoginOutcome where
  state : AuthState
  result : Except String Unit
  endpoint : String

/-- `login(email, password, isStaff)`: POSTs to `/auth/staff-login` or
`/auth/login` (the response given by `apiResult`, already routed through the
response interceptor here), destructures `access_token` and `user` from the
body, persists both, then sets the user state.  Any failure in the try block
is rethrown as `new Error(error?.response?.data?.detail || 'Login failed')`.
`tokenWriteOk` / `userWriteOk` model the two `setItem` calls rejecting; a
non-string `access_token` or an absent `user` field makes the corresponding
`setItem` reject as well (AsyncStorage accepts only strings and
`JSON.stringify undefined` is not a string). -/
def login (st : AuthState) (isStaff : Bool) (apiResult : ApiResult)
    (tokenWriteOk userWriteOk : Bool) : LoginOutcome :=
  let endpoint := if isStaff then "/auth/staff-login" else "/auth/login"
  match apiResult with
  | .failure e =>
    let store1 := (responseErrorInterceptor st.store e).1
    ⟨{ st with store := store1 }, .error (errorMessage e "Login failed"), endpoint⟩
  | .success resp =>
    match resp.data.getField "access_token" with
    | some (Json.str t) =>
      if tokenWriteOk then
        let store1 := storeSet st.store "token" t
        match resp.data.getField "user" with
        | some u =>
          if userWriteOk then
            let store2 := storeSet store1 "user" u.stringify
            ⟨{ st with store := store2, user := u }, .ok (), endpoint⟩
          else
            ⟨{ st with store := store1 }, .error "Login failed", endpoint⟩
        | none =>
          ⟨{ st with store := store1 }, .error "Login failed", endpoint⟩
      else
        ⟨st, .error "Login failed", endpoint⟩
    | _ =>
      ⟨st, .error "Login failed", endpoint⟩

/-- `logout()`: `multiRemove(['token','user','guest_session_id'])`, deletion
of the default Authorization header, then `setUser(null)`; the catch block
swallows any storage error and still forces `setUser(null)`.  The `Except`
result is the promise outcome: both branches resolve. -/
def logout (st : AuthState) (storageOk : Bool) : Except String AuthState :=
  if storageOk then
    .ok { st with
      store := multiRemove st.store ["token", "user", "guest_session_id"],
      defaultAuth := none,
      user := Json.null }
  else
    .ok { st with user := Json.null }

/-- `refreshUser()`: GETs `/auth/me` (result already routed through the
response interceptor), persists the fresh profile and sets the user state;
the catch block swallows any failure (it only logs), so the promise always
resolves.  `userWriteOk` models the `setItem('user', …)` call rejecting. -/
def refreshUser (st : AuthState) (apiResult : ApiResult)
    (userWriteOk : Bool) : Except String AuthState :=
  match apiResult with
  | .failure e =>
    .ok { st with store := (responseErrorInterceptor st.store e).1 }
  | .success resp =>
    if userWriteOk then
      .ok { st with
        store := storeSet st.store "user" resp.data.stringify,
        user := resp.data }
    else
      .ok st

/-! ## Store lemmas -/

theorem storeGet_remove_self (s : Store) (k : String) :
    storeGet (storeRemove s k) k = none := by
  induction s with
  | nil => rfl
  | cons p rest ih =>
    obtain ⟨k2, v⟩ := p
    by_cases h : k2 = k
    · simp [storeRemove, h, ih]
    · simp [storeRemove, storeGet, h, ih]

theorem storeGet_remove_other (s : Store) (k k2 : String) (h : k2 ≠ k) :
    storeGet (storeRemove s k) k2 = storeGet s k2 := by
  have hne : k ≠ k2 := fun hh => h hh.symm
  induction s with
  | nil => rfl
  | cons p rest ih =>
    obtain ⟨k3, v⟩ := p
    by_cases hk : k3 = k
    · subst hk
      simp [storeRemove, storeGet, hne, ih]
    · simp [storeRemove, storeGet, hk, ih]

theorem storeGet_set_self (s : Store) (k v : String) :
    storeGet (storeSet s k v) k = some v := by
  simp [storeSet, storeGet]

theorem storeGet_set_other (s : Store) (k k2 v : String) (h : k2 ≠ k) :
    storeGet (storeSet s k v) k2 = storeGet s k2 := by
  have : k ≠ k2 := fun hh => h hh.symm
  simp [storeSet, storeGet, this, storeGet_remove_other s k k2 h]

/-! ## Claims -/

/-- Claim C1: for every response with status 401, by the time the
response-phase hook completes, `token` and `user` are absent from the store
(regardless of endpoint — the hook never inspects one), and the original
failure is re-raised to the caller unchanged. -/
theorem c1_response401_clears_store_and_reraises
    (store : Store) (e : AxiosError) (r : HttpResponse)
    (hresp : e.response = some r) (hstatus : r.status = 401) :
    storeGet (responseErrorInterceptor store e).1 "token" = none ∧
    storeGet (responseErrorInterceptor store e).1 "user" = none ∧
    (responseErrorInterceptor store e).2 = e := by
  have hcond : e.response.map HttpResponse.status = some 401 := by
    rw [hresp]; simp [hstatus]
  refine ⟨?_, ?_, ?_⟩ <;> simp only [responseErrorInterceptor, hcond, if_pos]
  · rw [storeGet_remove_other _ "user" "token" (by decide)]
    exact storeGet_remove_self store "token"
  · exact storeGet_remove_self _ "user"

theorem c1_witness :
    storeGet (responseErrorInterceptor
      [("token", "t"), ("user", "u"), ("guest_session_id", "g")]
      ⟨some ⟨401, Json.null⟩⟩).1 "token" = none ∧
    storeGet (responseErrorInterceptor
      [("token", "t"), ("user", "u"), ("guest_session_id", "g")]
      ⟨some ⟨401, Json.null⟩⟩).1 "user" = none ∧
    (responseErrorInterceptor
      [("token", "t"), ("user", "u"), ("guest_session_id", "g")]
      ⟨some ⟨401, Json.null⟩⟩).2 = ⟨some ⟨401, Json.null⟩⟩ :=
  c1_response401_clears_store_and_reraises _ _ ⟨401, Json.null⟩ rfl rfl

/-- Claim C2 (amended): the request-phase hook reads `token` from the store
on every request; a present non-empty token yields an `Authorization` header
equal to `Bearer <token>`, while an absent or empty-string token leaves the
config untouched (so a request built without an Authorization header carries
none). -/
theorem c2_token_attachment (store : Store) (cfg : RequestConfig) :
    (∀ t, storeGet store "token" = some t → t ≠ "" →
      (requestInterceptor store cfg).authorization = some ("Bearer " ++ t)) ∧
    (storeGet store "token" = none → requestInterceptor store cfg = cfg) ∧
    (storeGet store "token" = some "" → requestInterceptor store cfg = cfg) := by
  refine ⟨fun t ht hne => ?_, fun h => ?_, fun h => ?_⟩ <;>
    simp [requestInterceptor, *]

theorem c2_witness :
    (requestInterceptor [("token", "abc")] ⟨none⟩).authorization
      = some ("Bearer " ++ "abc") ∧
    requestInterceptor [] ⟨none⟩ = ⟨none⟩ ∧
    requestInterceptor [("token", "")] ⟨none⟩ = ⟨none⟩ :=
  ⟨(c2_token_attachment [("token", "abc")] ⟨none⟩).1 "abc" rfl (by decide),
   (c2_token_attachment [] ⟨none⟩).2.1 rfl,
   (c2_token_attachment [("token", "")] ⟨none⟩).2.2 rfl⟩

/-- Claim C2, counterexample to the claim as stated: the empty string is a
token string present in the store, yet the transmitted request carries no
Authorization header at all (the hook tests JS truthiness, and `""` is
falsy), contradicting the claimed `Bearer <token>` header. -/
theorem c2_counterexample :
    storeGet [("token", "")] "token" = some "" ∧
    (requestInterceptor [("token", "")] ⟨none⟩).authorization = none := by
  exact ⟨rfl, rfl⟩

/-- Claim C3: for every successful login response carrying `access_token` T
and profile U, after `login()` resolves the store holds `token = T` and
`user = JSON(U)` and the in-memory user state equals U. -/
theorem c3_login_roundtrip (st : AuthState) (isStaff : Bool)
    (resp : HttpResponse) (t : String) (u : Json)
    (htok : resp.data.getField "access_token" = some (Json.str t))
    (huser : resp.data.getField "user" = some u) :
    (login st isStaff (.success resp) true true).result = .ok () ∧
    storeGet (login st isStaff (.success resp) true true).state.store "token"
      = some t ∧
    storeGet (login st isStaff (.success resp) true true).state.store "user"
      = some u.stringify ∧
    (login st isStaff (.success resp) true true).state.user = u := by
  have hout : login st isStaff (.success resp) true true =
      ⟨{ st with
          store := storeSet (storeSet st.store "token" t) "user" u.stringify,
          user := u },
        .ok (), if isStaff then "/auth/staff-login" else "/auth/login"⟩ := by
    simp [login, htok, huser]
  rw [hout]
  refine ⟨rfl, ?_, ?_, rfl⟩
  · rw [storeGet_set_other _ "user" "token" _ (by decide)]
    exact storeGet_set_self st.store "token" t
  · exact storeGet_set_self _ "user" _

theorem c3_witness :
    (login ⟨Json.null, false, [], none⟩ false
      (.success ⟨200, Json.obj (JFields.cons "access_token" (Json.str "T")
        (JFields.cons "user" (Json.obj (JFields.cons "name" (Json.str "ana")
          JFields.nil)) JFields.nil))⟩) true true).result = .ok () ∧
    storeGet (login ⟨Json.null, false, [], none⟩ false
      (.success ⟨200, Json.obj (JFields.cons "access_token" (Json.str "T")
        (JFields.cons "user" (Json.obj (JFields.cons "name" (Json.str "ana")
          JFields.nil)) JFields.nil))⟩) true true).state.store "token"
      = some "T" ∧
    storeGet (login ⟨Json.null, false, [], none⟩ false
      (.success ⟨200, Json.obj (JFields.cons "access_token" (Json.str "T")
        (JFields.cons "user" (Json.obj (JFields.cons "name" (Json.str "ana")
          JFields.nil)) JFields.nil))⟩) true true).state.store "user"
      = some (Json.obj (JFields.cons "name" (Json.str "ana")
          JFields.nil)).stringify ∧
    (login ⟨Json.null, false, [], none⟩ false
      (.success ⟨200, Json.obj (JFields.cons "access_token" (Json.str "T")
        (JFields.cons "user" (Json.obj (JFields.cons "name" (Json.str "ana")
          JFields.nil)) JFields.nil))⟩) true true).state.user
      = Json.obj (JFields.cons "name" (Json.str "ana") JFields.nil) :=
  c3_login_roundtrip _ false _ "T" _ rfl rfl

/-- Claim C4 (amended): a failing `login()` whose rejection carries a
response body with a non-empty string `detail = X` rejects with message
exactly X; one whose rejection carries no response body rejects with the
generic fallback `Login failed` (the message is a total string — never
`undefined`).  An empty-string `detail` also falls back to the generic
message, because the extraction uses JS `||` on a falsy value. -/
theorem c4_login_error_message (st : AuthState)
    (isStaff tokenWriteOk userWriteOk : Bool) :
    (∀ e r X, e.response = some r →
      r.data.getField "detail" = some (Json.str X) → X ≠ "" →
      (login st isStaff (.failure e) tokenWriteOk userWriteOk).result
        = .error X) ∧
    (∀ e, e.response = none →
      (login st isStaff (.failure e) tokenWriteOk userWriteOk).result
        = .error "Login failed") := by
  constructor
  · intro e r X hresp hdet hne
    simp [login, errorMessage, hresp, hdet, Json.truthy, hne, Json.jsString]
  · intro e hresp
    simp [login, errorMessage, hresp]

theorem c4_witness :
    (login ⟨Json.null, false, [], none⟩ false
      (.failure ⟨some ⟨400, Json.obj (JFields.cons "detail"
        (Json.str "Invalid credentials") JFields.nil)⟩⟩) true true).result
      = .error "Invalid credentials" ∧
    (login ⟨Json.null, false, [], none⟩ false
      (.failure ⟨none⟩) true true).result = .error "Login failed" :=
  ⟨(c4_login_error_message _ false true true).1 _
      ⟨400, Json.obj (JFields.cons "detail" (Json.str "Invalid credentials")
        JFields.nil)⟩ "Invalid credentials" rfl rfl (by decide),
   (c4_login_error_message _ false true true).2 ⟨none⟩ rfl⟩

/-- Claim C4, counterexample to the claim as stated: a rejection whose body
carries the string field `detail = ""` makes `login()` reject with the
generic `Login failed`, not with the (empty) detail string, because
`detail || 'Login failed'` treats `""` as falsy. -/
theorem c4_counterexample :
    (AxiosError.mk (some ⟨400, Json.obj (JFields.cons "detail" (Json.str "")
        JFields.nil)⟩)).response.map (fun r => r.data.getField "detail")
      = some (some (Json.str "")) ∧
    (login ⟨Json.null, false, [], none⟩ false
      (.failure ⟨some ⟨400, Json.obj (JFields.cons "detail" (Json.str "")
        JFields.nil)⟩⟩) true true).result = .error "Login failed" ∧
    ("Login failed" : String) ≠ "" :=
  ⟨rfl, rfl, by decide⟩

/-- Claim C10: when the `user` write fails after the `token` write succeeded
(login from an anonymous state with no cached `user` entry), `login()`
rejects with the generic fallback message while the store keeps the new
token with no `user` entry and the in-memory user state is still null. -/
theorem c10_login_partial_persist (st : AuthState) (isStaff : Bool)
    (resp : HttpResponse) (t : String) (u : Json)
    (hu0 : st.user = Json.null)
    (hs0 : storeGet st.store "user" = none)
    (htok : resp.data.getField "access_token" = some (Json.str t))
    (huser : resp.data.getField "user" = some u) :
    (login st isStaff (.success resp) true false).result
      = .error "Login failed" ∧
    storeGet (login st isStaff (.success resp) true false).state.store "token"
      = some t ∧
    storeGet (login st isStaff (.success resp) true false).state.store "user"
      = none ∧
    (login st isStaff (.success resp) true false).state.user = Json.null := by
  have hout : login st isStaff (.success resp) true false =
      ⟨{ st with store := storeSet st.store "token" t },
        .error "Login failed",
        if isStaff then "/auth/staff-login" else "/auth/login"⟩ := by
    simp [login, htok, huser]
  rw [hout]
  refine ⟨rfl, ?_, ?_, hu0⟩
  · exact storeGet_set_self st.store "token" t
  · rw [storeGet_set_other _ "token" "user" _ (by decide)]
    exact hs0

theorem c10_witness :
    (login ⟨Json.null, false, [], none⟩ false
      (.success ⟨200, Json.obj (JFields.cons "access_token" (Json.str "T")
        (JFields.cons "user" (Json.str "ana") JFields.nil))⟩)
      true false).result = .error "Login failed" ∧
    storeGet (login ⟨Json.null, false, [], none⟩ false
      (.success ⟨200, Json.obj (JFields.cons "access_token" (Json.str "T")
        (JFields.cons "user" (Json.str "ana") JFields.nil))⟩)
      true false).state.store "token" = some "T" ∧
    storeGet (login ⟨Json.null, false, [], none⟩ false
      (.success ⟨200, Json.obj (JFields.cons "access_token" (Json.str "T")
        (JFields.cons "user" (Json.str "ana") JFields.nil))⟩)
      true false).state.store "user" = none ∧
    (login ⟨Json.null, false, [], none⟩ false
      (.success ⟨200, Json.obj (JFields.cons "access_token" (Json.str "T")
        (JFields.cons "user" (Json.str "ana") JFields.nil))⟩)
      true false).state.user = Json.null :=
  c10_login_partial_persist _ false _ "T" (Json.str "ana") rfl rfl rfl rfl

/-- Unfolding of `loadUser` when the storage reads succeed. -/
theorem loadUser_false_eq (store : Store) :
    loadUser store false =
      match storeGet store "token", storeGet store "user" with
      | some t, some ud =>
        if t ≠ "" ∧ ud ≠ "" then
          match jsonParse ud with
          | some v => ⟨v, false, []⟩
          | none => ⟨Json.null, false, []⟩
        else ⟨Json.null, false, []⟩
      | _, _ => ⟨Json.null, false, []⟩ := rfl

/-- Unfolding of `loadUser` when both entries are read back. -/
theorem loadUser_some_some (store : Store) (t ud : String)
    (hT : storeGet store "token" = some t)
    (hU : storeGet store "user" = some ud) :
    loadUser store false =
      if t ≠ "" ∧ ud ≠ "" then
        match jsonParse ud with
        | some v => ⟨v, false, []⟩
        | none => ⟨Json.null, false, []⟩
      else ⟨Json.null, false, []⟩ := by
  rw [loadUser_false_eq, hT, hU]

/-- Claim C5 (amended): a failing `GET /auth/me` leaves the in-memory user
state unchanged and `refreshUser` resolves (the catch block swallows the
failure rather than re-raising it); for every non-401 failure the store is
also unchanged, but a 401 failure makes the response-phase hook remove
`token` and `user` from the store before `refreshUser` observes it. -/
theorem c5_refresh_failure_nondestructive (st : AuthState) (e : AxiosError)
    (userWriteOk : Bool) :
    (e.response.map HttpResponse.status ≠ some 401 →
      refreshUser st (.failure e) userWriteOk = .ok st) ∧
    (∀ r, e.response = some r → r.status = 401 →
      ∃ st2, refreshUser st (.failure e) userWriteOk = .ok st2 ∧
        st2.user = st.user ∧
        storeGet st2.store "token" = none ∧
        storeGet st2.store "user" = none) := by
  constructor
  · intro h
    simp [refreshUser, responseErrorInterceptor, h]
  · intro r hresp hstatus
    have hcond : e.response.map HttpResponse.status = some 401 := by
      rw [hresp]; simp [hstatus]
    refine ⟨{ st with
        store := storeRemove (storeRemove st.store "token") "user" },
      ?_, rfl, ?_, ?_⟩
    · simp [refreshUser, responseErrorInterceptor, hcond]
    · rw [storeGet_remove_other _ "user" "token" (by decide)]
      exact storeGet_remove_self st.store "token"
    · exact storeGet_remove_self _ "user"

theorem c5_witness :
    refreshUser ⟨Json.str "u", false, [("token", "t"), ("user", "x")], none⟩
      (.failure ⟨some ⟨500, Json.null⟩⟩) true
      = .ok ⟨Json.str "u", false, [("token", "t"), ("user", "x")], none⟩ ∧
    (∃ st2, refreshUser ⟨Json.str "u", false, [("token", "t"), ("user", "x")],
        none⟩ (.failure ⟨some ⟨401, Json.null⟩⟩) true = .ok st2 ∧
      st2.user = Json.str "u" ∧
      storeGet st2.store "token" = none ∧
      storeGet st2.store "user" = none) :=
  ⟨(c5_refresh_failure_nondestructive _ _ true).1 (by decide),
   (c5_refresh_failure_nondestructive _ _ true).2 ⟨401, Json.null⟩ rfl rfl⟩

/-- Claim C5, counterexample to the claim as stated: a refresh that fails
with a 401 is a refresh failure after which the stored `user` entry does NOT
remain unchanged — the response-phase hook deletes it (and `token`) — and
`refreshUser` resolves instead of rejecting. -/
theorem c5_counterexample :
    storeGet ([("token", "t"), ("user", "x")] : Store) "user" = some "x" ∧
    refreshUser ⟨Json.str "u", false, [("token", "t"), ("user", "x")], none⟩
      (.failure ⟨some ⟨401, Json.null⟩⟩) true
      = .ok ⟨Json.str "u", false, [], none⟩ :=
  ⟨rfl, rfl⟩

/-- Claim C6 (amended): with the storage reads succeeding, startup
rehydration makes no network call and completes loading in every case; when
the store holds a non-empty `token` and a non-empty `user` entry that parses
to `v`, the user state becomes `v` (the authenticated state, for a non-null
profile); when either entry is absent, or is the empty string (JS-falsy), or
fails to parse, the user state stays null (the anonymous state). -/
theorem c6_startup_rehydration (store : Store) :
    (∀ t ud v, storeGet store "token" = some t →
      storeGet store "user" = some ud → t ≠ "" → ud ≠ "" →
      jsonParse ud = some v → loadUser store false = ⟨v, false, []⟩) ∧
    (∀ t ud, storeGet store "token" = some t →
      storeGet store "user" = some ud → jsonParse ud = none →
      loadUser store false = ⟨Json.null, false, []⟩) ∧
    (storeGet store "token" = none →
      loadUser store false = ⟨Json.null, false, []⟩) ∧
    (storeGet store "user" = none →
      loadUser store false = ⟨Json.null, false, []⟩) ∧
    (storeGet store "token" = some "" →
      loadUser store false = ⟨Json.null, false, []⟩) ∧
    (storeGet store "user" = some "" →
      loadUser store false = ⟨Json.null, false, []⟩) := by
  refine ⟨?_, ?_, ?_, ?_, ?_, ?_⟩
  · intro t ud v hT hU ht hud hp
    rw [loadUser_some_some store t ud hT hU, if_pos ⟨ht, hud⟩, hp]
  · intro t ud hT hU hp
    rw [loadUser_some_some store t ud hT hU]
    by_cases hc : t ≠ "" ∧ ud ≠ ""
    · rw [if_pos hc, hp]
    · rw [if_neg hc]
  · intro hT
    rw [loadUser_false_eq, hT]
  · intro hU
    rw [loadUser_false_eq, hU]
    all_goals rcases storeGet store "token" with _ | t <;> rfl
  · intro hT
    rw [loadUser_false_eq, hT]
    all_goals rcases storeGet store "user" with _ | ud <;> rfl
  · intro hU
    rw [loadUser_false_eq, hU]
    rcases storeGet store "token" with _ | t
    · rfl
    · simp

theorem c6_witness :
    loadUser [("token", "T"), ("user", "\"ana\"")] false
      = ⟨Json.str "ana", false, []⟩ ∧
    loadUser [] false = ⟨Json.null, false, []⟩ :=
  ⟨(c6_startup_rehydration _).1 "T" "\"ana\"" (Json.str "ana") rfl rfl
      (by decide) (by decide) (by decide),
   (c6_startup_rehydration _).2.2.1 rfl⟩

/-- Claim C6, counterexample to the claim as stated: a store holding a
(present) empty-string `token` entry and a `user` entry that parses
successfully still lands in the anonymous state, because the code tests JS
truthiness of the raw strings, not mere presence. -/
theorem c6_counterexample :
    storeGet ([("token", ""), ("user", "\"ana\"")] : Store) "token"
      = some "" ∧
    jsonParse "\"ana\"" = some (Json.str "ana") ∧
    (loadUser [("token", ""), ("user", "\"ana\"")] false).user = Json.null ∧
    Json.null ≠ Json.str "ana" := by
  refine ⟨rfl, by decide, rfl, by decide⟩

/-- Claim C7: `logout()` never rejects (a storage failure is swallowed), the
in-memory user state is null afterwards in every case, and when the store
removal succeeds the keys `token`, `user` and `guest_session_id` are all
absent afterwards. -/
theorem c7_logout_idempotent_failsafe (st : AuthState) (storageOk : Bool) :
    ∃ st2, logout st storageOk = Except.ok st2 ∧ st2.user = Json.null ∧
      (storageOk = true →
        storeGet st2.store "token" = none ∧
        storeGet st2.store "user" = none ∧
        storeGet st2.store "guest_session_id" = none) := by
  cases storageOk with
  | false =>
    exact ⟨_, rfl, rfl, fun h => absurd h (by decide)⟩
  | true =>
    refine ⟨_, rfl, rfl, fun _ => ⟨?_, ?_, ?_⟩⟩
    · show storeGet (storeRemove (storeRemove (storeRemove st.store "token")
        "user") "guest_session_id") "token" = none
      rw [storeGet_remove_other _ "guest_session_id" "token" (by decide),
        storeGet_remove_other _ "user" "token" (by decide)]
      exact storeGet_remove_self st.store "token"
    · show storeGet (storeRemove (storeRemove (storeRemove st.store "token")
        "user") "guest_session_id") "user" = none
      rw [storeGet_remove_other _ "guest_session_id" "user" (by decide)]
      exact storeGet_remove_self _ "user"
    · show storeGet (storeRemove (storeRemove (storeRemove st.store "token")
        "user") "guest_session_id") "guest_session_id" = none
      exact storeGet_remove_self _ "guest_session_id"

theorem c7_witness :
    (∃ st2, logout ⟨Json.null, false, [], none⟩ true = Except.ok st2 ∧
      st2.user = Json.null ∧
      (true = true →
        storeGet st2.store "token" = none ∧
        storeGet st2.store "user" = none ∧
        storeGet st2.store "guest_session_id" = none)) ∧
    (∃ st2, logout ⟨Json.str "u", false, [("token", "t")], none⟩ false
        = Except.ok st2 ∧ st2.user = Json.null ∧
      (false = true →
        storeGet st2.store "token" = none ∧
        storeGet st2.store "user" = none ∧
        storeGet st2.store "guest_session_id" = none)) :=
  ⟨c7_logout_idempotent_failsafe ⟨Json.null, false, [], none⟩ true,
   c7_logout_idempotent_failsafe ⟨Json.str "u", false, [("token", "t")], none⟩
     false⟩

/-- Claim C8: a storage failure during startup rehydration is caught — the
application lands in the anonymous state with loading complete and no error
propagated — and a cached profile that fails to parse is treated the same
way. -/
theorem c8_rehydration_failure_lands_anonymous (store : Store) :
    loadUser store true = ⟨Json.null, false, []⟩ ∧
    (∀ t ud, storeGet store "token" = some t →
      storeGet store "user" = some ud → jsonParse ud = none →
      loadUser store false = ⟨Json.null, false, []⟩) := by
  constructor
  · rfl
  · intro t ud hT hU hp
    rw [loadUser_some_some store t ud hT hU]
    by_cases hc : t ≠ "" ∧ ud ≠ ""
    · rw [if_pos hc, hp]
    · rw [if_neg hc]

theorem c8_witness :
    loadUser [("token", "t"), ("user", "oops")] true
      = ⟨Json.null, false, []⟩ ∧
    loadUser [("token", "t"), ("user", "oops")] false
      = ⟨Json.null, false, []⟩ :=
  ⟨(c8_rehydration_failure_lands_anonymous _).1,
   (c8_rehydration_failure_lands_anonymous _).2 "t" "oops" rfl rfl
     (by decide)⟩

/-- Claim C9: the 401 handler removes `token` and `user` with two separate
sequential awaited removals, `token` first; between them lies a reachable
intermediate store state with `token` absent while `user` is still present,
and the trace ends in exactly the store the response-phase hook hands on. -/
theorem c9_401_two_step_removal (store : Store) (u : String)
    (h : storeGet store "user" = some u) :
    (∃ mid, mid ∈ interceptor401States store ∧
      storeGet mid "token" = none ∧ storeGet mid "user" = some u) ∧
    (∀ e : AxiosError, e.response.map HttpResponse.status = some 401 →
      interceptor401States store =
        [store, storeRemove store "token",
          (responseErrorInterceptor store e).1]) := by
  constructor
  · refine ⟨storeRemove store "token", ?_,
      storeGet_remove_self store "token", ?_⟩
    · simp [interceptor401States]
    · rw [storeGet_remove_other _ "token" "user" (by decide)]
      exact h
  · intro e he
    simp [interceptor401States, responseErrorInterceptor, he]

theorem c9_witness :
    (∃ mid, mid ∈ interceptor401States [("token", "t"), ("user", "u")] ∧
      storeGet mid "token" = none ∧ storeGet mid "user" = some "u") ∧
    interceptor401States [("token", "t"), ("user", "u")] =
      [[("token", "t"), ("user", "u")],
        storeRemove [("token", "t"), ("user", "u")] "token",
        (responseErrorInterceptor [("token", "t"), ("user", "u")]
          ⟨some ⟨401, Json.null⟩⟩).1] :=
  ⟨(c9_401_two_step_removal [("token", "t"), ("user", "u")] "u" rfl).1,
   (c9_401_two_step_removal [("token", "t"), ("user", "u")] "u" rfl).2
     ⟨some ⟨401, Json.null⟩⟩ rfl⟩
